import Mathlib

/-!
Verification of the go_link_sdk_demo IoT agent against its specification.

The Go sources are shallowly embedded: pure functions become Lean
functions, machine words are `Nat` with explicit reduction `% 2^32`,
byte strings are `List Nat` of UTF-8 bytes, fallible operations return
`Option`/`Except`, and message handlers are modelled as data.  Every
definition is translated from the corresponding Go function; doc
comments name the source file and symbol.
-/

set_option maxRecDepth 4000

namespace GoSdk

/-! ## Bytes and hex encoding (Go `encoding/hex`, `[]byte(string)`) -/

/-- UTF-8 encoding of a single character, as Go's `[]byte(string)` produces. -/
def encodeChar (c : Char) : List Nat :=
  let n := c.toNat
  if n < 0x80 then [n]
  else if n < 0x800 then
    [0xC0 ||| (n >>> 6), 0x80 ||| (n &&& 0x3F)]
  else if n < 0x10000 then
    [0xE0 ||| (n >>> 12), 0x80 ||| ((n >>> 6) &&& 0x3F), 0x80 ||| (n &&& 0x3F)]
  else
    [0xF0 ||| (n >>> 18), 0x80 ||| ((n >>> 12) &&& 0x3F),
     0x80 ||| ((n >>> 6) &&& 0x3F), 0x80 ||| (n &&& 0x3F)]

/-- The UTF-8 bytes of a string: Go's `[]byte(s)`. -/
def utf8Bytes (s : String) : List Nat :=
  s.data.flatMap encodeChar

/-- Lowercase hexadecimal digit for a nibble. -/
def hexDigit (n : Nat) : Char :=
  "0123456789abcdef".data.getD n '0'

/-- Lowercase hex encoding of one byte. -/
def byteToHex (b : Nat) : String :=
  ⟨[hexDigit (b / 16 % 16), hexDigit (b % 16)]⟩

/-- Lowercase hex of a byte list: Go's `hex.EncodeToString` / `fmt.Sprintf("%x", …)`. -/
def bytesToHex (bs : List Nat) : String :=
  bs.foldl (fun acc b => acc ++ byteToHex b) ""

/-! ## 32-bit word helpers (Go `uint32` arithmetic) -/

/-- 2^32, the modulus of Go `uint32` arithmetic. -/
def w32 : Nat := 4294967296

/-- Addition of `uint32` values. -/
def add32 (a b : Nat) : Nat := (a + b) % w32

/-- Right rotation of a 32-bit word. -/
def rotr32 (n x : Nat) : Nat :=
  ((x >>> n) ||| (x <<< (32 - n))) % w32

/-- Left rotation of a 32-bit word. -/
def rotl32 (n x : Nat) : Nat :=
  ((x <<< n) ||| (x >>> (32 - n))) % w32

/-- Bitwise complement of a 32-bit word. -/
def not32 (x : Nat) : Nat := Nat.xor x (w32 - 1)

/-! ## SHA-256 (Go `crypto/sha256`) -/

namespace Sha256

/-- The 64 SHA-256 round constants. -/
def K : List Nat :=
  [1116352408, 1899447441, 3049323471, 3921009573,
   961987163, 1508970993, 2453635748, 2870763221,
   3624381080, 310598401, 607225278, 1426881987,
   1925078388, 2162078206, 2614888103, 3248222580,
   3835390401, 4022224774, 264347078, 604807628,
   770255983, 1249150122, 1555081692, 1996064986,
   2554220882, 2821834349, 2952996808, 3210313671,
   3336571891, 3584528711, 113926993, 338241895,
   666307205, 773529912, 1294757372, 1396182291,
   1695183700, 1986661051, 2177026350, 2456956037,
   2730485921, 2820302411, 3259730800, 3345764771,
   3516065817, 3600352804, 4094571909, 275423344,
   430227734, 506948616, 659060556, 883997877,
   958139571, 1322822218, 1537002063, 1747873779,
   1955562222, 2024104815, 2227730452, 2361852424,
   2428436474, 2756734187, 3204031479, 3329325298]

/-- The eight-word hash state. -/
structure St where
  a : Nat
  b : Nat
  c : Nat
  d : Nat
  e : Nat
  f : Nat
  g : Nat
  h : Nat
deriving Repr, DecidableEq

/-- Initial SHA-256 state. -/
def init : St :=
  ⟨1779033703, 3144134277, 1013904242, 2773480762,
   1359893119, 2600822924, 528734635, 1541459225⟩

def smallSigma0 (x : Nat) : Nat :=
  Nat.xor (Nat.xor (rotr32 7 x) (rotr32 18 x)) (x >>> 3)

def smallSigma1 (x : Nat) : Nat :=
  Nat.xor (Nat.xor (rotr32 17 x) (rotr32 19 x)) (x >>> 10)

def bigSigma0 (x : Nat) : Nat :=
  Nat.xor (Nat.xor (rotr32 2 x) (rotr32 13 x)) (rotr32 22 x)

def bigSigma1 (x : Nat) : Nat :=
  Nat.xor (Nat.xor (rotr32 6 x) (rotr32 11 x)) (rotr32 25 x)

def chFn (x y z : Nat) : Nat :=
  Nat.xor (Nat.land x y) (Nat.land (not32 x) z)

def majFn (x y z : Nat) : Nat :=
  Nat.xor (Nat.xor (Nat.land x y) (Nat.land x z)) (Nat.land y z)

/-- First 16 message-schedule words of a 64-byte block (big-endian). -/
def initWords (block : List Nat) : List Nat :=
  (List.range 16).map fun i =>
    block.getD (4*i) 0 * 16777216 + block.getD (4*i+1) 0 * 65536 +
    block.getD (4*i+2) 0 * 256 + block.getD (4*i+3) 0

/-- Extend the message schedule from 16 to 64 words. -/
def extendWords (ws : List Nat) : Nat → List Nat
  | 0 => ws
  | n + 1 =>
    let ws' := extendWords ws n
    let t := ws'.length
    ws' ++ [add32 (add32 (smallSigma1 (ws'.getD (t-2) 0)) (ws'.getD (t-7) 0))
              (add32 (smallSigma0 (ws'.getD (t-15) 0)) (ws'.getD (t-16) 0))]

/-- One SHA-256 round. -/
def round (k w : Nat) (s : St) : St :=
  let t1 := add32 (add32 s.h (bigSigma1 s.e)) (add32 (chFn s.e s.f s.g) (add32 k w))
  let t2 := add32 (bigSigma0 s.a) (majFn s.a s.b s.c)
  ⟨add32 t1 t2, s.a, s.b, s.c, add32 s.d t1, s.e, s.f, s.g⟩

/-- Compress one 64-byte block into the running state. -/
def compress (st : St) (block : List Nat) : St :=
  let ws := extendWords (initWords block) 48
  let s := (List.range 64).foldl (fun s i => round (K.getD i 0) (ws.getD i 0) s) st
  ⟨add32 st.a s.a, add32 st.b s.b, add32 st.c s.c, add32 st.d s.d,
   add32 st.e s.e, add32 st.f s.f, add32 st.g s.g, add32 st.h s.h⟩

/-- Big-endian 8-byte encoding of a 64-bit length. -/
def lenBytesBE (n : Nat) : List Nat :=
  [n >>> 56 % 256, n >>> 48 % 256, n >>> 40 % 256, n >>> 32 % 256,
   n >>> 24 % 256, n >>> 16 % 256, n >>> 8 % 256, n % 256]

/-- SHA-256 padding: `0x80`, zeros to 56 mod 64, then the bit length. -/
def pad (msg : List Nat) : List Nat :=
  let zeros := (64 + 56 - (msg.length % 64) - 1) % 64
  msg ++ 0x80 :: List.replicate zeros 0 ++ lenBytesBE (msg.length * 8)

/-- Split a list into 64-byte chunks (structural recursion on a fuel
bound that always suffices: every step consumes 64 bytes). -/
def chunksAux : Nat → List Nat → List (List Nat)
  | 0, _ => []
  | _, [] => []
  | fuel + 1, l => l.take 64 :: chunksAux fuel (l.drop 64)

/-- Split a list into 64-byte chunks. -/
def chunks64 (l : List Nat) : List (List Nat) :=
  chunksAux l.length l

/-- Big-endian bytes of one 32-bit word. -/
def wordBytesBE (x : Nat) : List Nat :=
  [x >>> 24 % 256, x >>> 16 % 256, x >>> 8 % 256, x % 256]

/-- The SHA-256 digest (32 bytes) of a byte string. -/
def digest (msg : List Nat) : List Nat :=
  let fin := (chunks64 (pad msg)).foldl compress init
  wordBytesBE fin.a ++ wordBytesBE fin.b ++ wordBytesBE fin.c ++ wordBytesBE fin.d ++
  wordBytesBE fin.e ++ wordBytesBE fin.f ++ wordBytesBE fin.g ++ wordBytesBE fin.h

end Sha256

/-! ## HMAC-SHA256 (Go `crypto/hmac` with `sha256.New`) -/

/-- HMAC-SHA256 over byte strings, per RFC 2104 as implemented by Go's
`crypto/hmac`: keys longer than the 64-byte block are first hashed. -/
def hmacSha256 (key msg : List Nat) : List Nat :=
  let k0 := if key.length > 64 then Sha256.digest key else key
  let k := k0 ++ List.replicate (64 - k0.length) 0
  let ipad := k.map (Nat.xor 0x36)
  let opad := k.map (Nat.xor 0x5c)
  Sha256.digest (opad ++ Sha256.digest (ipad ++ msg))

/-! ## MD5 (Go `crypto/md5`) -/

namespace Md5

/-- The 64 MD5 sine-derived constants. -/
def K : List Nat :=
  [0xd76aa478, 0xe8c7b756, 0x242070db, 0xc1bdceee, 0xf57c0faf, 0x4787c62a, 0xa8304613, 0xfd469501,
   0x698098d8, 0x8b44f7af, 0xffff5bb1, 0x895cd7be, 0x6b901122, 0xfd987193, 0xa679438e, 0x49b40821,
   0xf61e2562, 0xc040b340, 0x265e5a51, 0xe9b6c7aa, 0xd62f105d, 0x02441453, 0xd8a1e681, 0xe7d3fbc8,
   0x21e1cde6, 0xc33707d6, 0xf4d50d87, 0x455a14ed, 0xa9e3e905, 0xfcefa3f8, 0x676f02d9, 0x8d2a4c8a,
   0xfffa3942, 0x8771f681, 0x6d9d6122, 0xfde5380c, 0xa4beea44, 0x4bdecfa9, 0xf6bb4b60, 0xbebfbc70,
   0x289b7ec6, 0xeaa127fa, 0xd4ef3085, 0x04881d05, 0xd9d4d039, 0xe6db99e5, 0x1fa27cf8, 0xc4ac5665,
   0xf4292244, 0x432aff97, 0xab9423a7, 0xfc93a039, 0x655b59c3, 0x8f0ccc92, 0xffeff47d, 0x85845dd1,
   0x6fa87e4f, 0xfe2ce6e0, 0xa3014314, 0x4e0811a1, 0xf7537e82, 0xbd3af235, 0x2ad7d2bb, 0xeb86d391]

/-- Per-round left-rotation amounts. -/
def S : List Nat :=
  [7, 12, 17, 22, 7, 12, 17, 22, 7, 12, 17, 22, 7, 12, 17, 22,
   5,  9, 14, 20, 5,  9, 14, 20, 5,  9, 14, 20, 5,  9, 14, 20,
   4, 11, 16, 23, 4, 11, 16, 23, 4, 11, 16, 23, 4, 11, 16, 23,
   6, 10, 15, 21, 6, 10, 15, 21, 6, 10, 15, 21, 6, 10, 15, 21]

/-- The four-word MD5 state. -/
structure St where
  a : Nat
  b : Nat
  c : Nat
  d : Nat
deriving Repr, DecidableEq

/-- Initial MD5 state. -/
def init : St := ⟨0x67452301, 0xefcdab89, 0x98badcfe, 0x10325476⟩

/-- Little-endian 32-bit words of a 64-byte block. -/
def initWords (block : List Nat) : List Nat :=
  (List.range 16).map fun i =>
    block.getD (4*i) 0 + block.getD (4*i+1) 0 * 256 +
    block.getD (4*i+2) 0 * 65536 + block.getD (4*i+3) 0 * 16777216

/-- One MD5 round `i` over message words `m`. -/
def round (m : List Nat) (s : St) (i : Nat) : St :=
  let fg : Nat × Nat :=
    if i < 16 then
      (Nat.lor (Nat.land s.b s.c) (Nat.land (not32 s.b) s.d), i)
    else if i < 32 then
      (Nat.lor (Nat.land s.d s.b) (Nat.land (not32 s.d) s.c), (5*i + 1) % 16)
    else if i < 48 then
      (Nat.xor (Nat.xor s.b s.c) s.d, (3*i + 5) % 16)
    else
      (Nat.xor s.c (Nat.lor s.b (not32 s.d)), (7*i) % 16)
  let f := add32 (add32 fg.1 s.a) (add32 (K.getD i 0) (m.getD fg.2 0))
  ⟨s.d, add32 s.b (rotl32 (S.getD i 0) f), s.b, s.c⟩

/-- Compress one 64-byte block. -/
def compress (st : St) (block : List Nat) : St :=
  let m := initWords block
  let s := (List.range 64).foldl (round m) st
  ⟨add32 st.a s.a, add32 st.b s.b, add32 st.c s.c, add32 st.d s.d⟩

/-- Little-endian 8-byte encoding of the bit length. -/
def lenBytesLE (n : Nat) : List Nat :=
  [n % 256, n >>> 8 % 256, n >>> 16 % 256, n >>> 24 % 256,
   n >>> 32 % 256, n >>> 40 % 256, n >>> 48 % 256, n >>> 56 % 256]

/-- MD5 padding: `0x80`, zeros to 56 mod 64, then the little-endian bit length. -/
def pad (msg : List Nat) : List Nat :=
  let zeros := (64 + 56 - (msg.length % 64) - 1) % 64
  msg ++ 0x80 :: List.replicate zeros 0 ++ lenBytesLE (msg.length * 8)

/-- Little-endian bytes of one 32-bit word. -/
def wordBytesLE (x : Nat) : List Nat :=
  [x % 256, x >>> 8 % 256, x >>> 16 % 256, x >>> 24 % 256]

/-- The MD5 digest (16 bytes) of a byte string. -/
def digest (msg : List Nat) : List Nat :=
  let fin := (Sha256.chunks64 (pad msg)).foldl compress init
  wordBytesLE fin.a ++ wordBytesLE fin.b ++ wordBytesLE fin.c ++ wordBytesLE fin.d

end Md5

/-! ## Credential builder (`pkg/auth/auth.go`) -/

namespace Auth

/-- `pkg/auth`: the `Credentials` struct. -/
structure Credentials where
  ClientID : String
  Username : String
  Password : String
deriving Repr, DecidableEq

/-- `pkg/auth.calculateHMACSHA256`: lowercase hex of the HMAC-SHA256 of
`data` keyed by `key` (`hex.EncodeToString(h.Sum(nil))`). -/
def calculateHMACSHA256 (data key : String) : String :=
  bytesToHex (hmacSha256 (utf8Bytes key) (utf8Bytes data))

/-- `pkg/auth.GenerateMQTTCredentials`, translated clause by clause: the
fixed timestamp, the SDK version string, and the three `fmt.Sprintf`
templates for ClientID, Username, and the HMAC sign content. -/
def GenerateMQTTCredentials (productKey deviceName deviceSecret secureMode : String) :
    Credentials :=
  let timestamp := "2524608000000"
  let sdkVersion := "sdk-go-4.2.0"
  let clientID :=
    productKey ++ "." ++ deviceName ++ "|timestamp=" ++ timestamp ++ ",_ss=1,_v=" ++
    sdkVersion ++ ",securemode=" ++ secureMode ++ ",signmethod=hmacsha256,ext=3,_conn=tl|"
  let username := deviceName ++ "&" ++ productKey
  let signContent :=
    "clientId" ++ productKey ++ "." ++ deviceName ++ "deviceName" ++ deviceName ++
    "productKey" ++ productKey ++ "timestamp" ++ timestamp
  let password := calculateHMACSHA256 signContent deviceSecret
  ⟨clientID, username, password⟩

end Auth

/-! ## MQTT session (`pkg/mqtt/client.go`) -/

namespace Mqtt

/-- Split a character list at `/` separators (the behaviour of
`strings.Split(topic, "/")`). -/
def splitSlash : List Char → List String
  | [] => [""]
  | c :: rest =>
    let r := splitSlash rest
    if c = '/' then "" :: r
    else
      match r with
      | s :: tail => (⟨c :: s.data⟩ : String) :: tail
      | [] => [⟨[c]⟩]

/-- Split an MQTT topic or filter into `/`-separated segments, as both the
broker's router and the spec's matching rules do. -/
def segments (topic : String) : List String :=
  splitSlash topic.data

/-- Modelled from the spec (§4.2 wildcard matching, claim C1): a filter
matches a topic iff their segments pairwise match, where `+` matches
exactly one segment, `#` as the final filter segment matches zero or more
remaining segments, and any other segment matches literally.  This is the
standard MQTT rule, which is also what the paho router applies when it
delivers a message to the callback registered for a wildcard filter. -/
def segMatch : List String → List String → Bool
  | [], [] => true
  | ["#"], _ => true
  | f :: fs, t :: ts => (f = "+" || f = t) && segMatch fs ts
  | _, _ => false

/-- MQTT topic-filter matching on whole strings. -/
def mqttFilterMatch (filter topic : String) : Bool :=
  segMatch (segments filter) (segments topic)

/-- The session's stored `topic → handler` table (`Client.handlers`).
Handlers are identified by numeric tags.  `Subscribe` stores
`c.handlers[topic] = handler`, so a duplicate key is replaced. -/
def storeHandler (handlers : List (String × Nat)) (topic : String) (h : Nat) :
    List (String × Nat) :=
  if handlers.any (fun p => p.1 = topic) then
    handlers.map (fun p => if p.1 = topic then (topic, h) else p)
  else
    handlers ++ [(topic, h)]

/-- Exact-key lookup in the handler table, Go's `c.handlers[msg.Topic()]`. -/
def lookupHandler (handlers : List (String × Nat)) (topic : String) : Option Nat :=
  (handlers.find? (fun p => p.1 = topic)).map (·.2)

/-- `pkg/mqtt/client.go Client.Subscribe`'s message dispatch: for each stored
subscription whose filter the paho router matches against the incoming
topic, the registered closure runs, and the closure invokes
`c.handlers[msg.Topic()]` — an exact lookup of the concrete message topic —
if and only if that exact key is present.  Returns the list of handler tags
actually invoked for a message on `topic`. -/
def dispatch (handlers : List (String × Nat)) (topic : String) : List Nat :=
  (handlers.filter (fun p => mqttFilterMatch p.1 topic)).flatMap
    (fun _ => match lookupHandler handlers topic with
      | some h => [h]
      | none => [])

end Mqtt

/-! ## JSON values and Go `encoding/json` unmarshalling -/

/-- JSON values.  Numbers are restricted to integers, which covers every
payload exchanged by the claims under verification. -/
inductive Json where
  | str : String → Json
  | num : Int → Json
  | boolean : Bool → Json
  | null : Json
  | arr : List Json → Json
  | obj : List (String × Json) → Json
deriving Repr

/-- A byte payload together with its JSON parse: `parsed = none` models a
payload that `json.Unmarshal` rejects as malformed, `parsed = some j`
models bytes whose JSON document is `j`. -/
structure Payload where
  raw : String
  parsed : Option Json
deriving Repr

/-- Last-wins field lookup in a JSON object, as Go's decoder overwrites
duplicate keys.  Keys are matched exactly (the claims' payloads use exact
lowercase keys, so Go's case-insensitive fallback never fires). -/
def Json.getField (fields : List (String × Json)) (key : String) : Option Json :=
  (fields.filter (fun p => p.1 = key)).getLast?.map (·.2)

/-- Unmarshal a JSON value into a Go `string` struct field: absent and
`null` leave the zero value, a string decodes, anything else errors. -/
def Json.strField (fields : List (String × Json)) (key : String) : Option String :=
  match Json.getField fields key with
  | none => some ""
  | some (Json.str s) => some s
  | some Json.null => some ""
  | some _ => none

/-- Unmarshal a JSON value into a Go `map[string]interface{}` struct field:
absent and `null` leave a nil map, an object decodes, anything else errors. -/
def Json.mapField (fields : List (String × Json)) (key : String) :
    Option (Option (List (String × Json))) :=
  match Json.getField fields key with
  | none => some none
  | some Json.null => some none
  | some (Json.obj fs) => some (some fs)
  | some _ => none

/-- Unmarshal a JSON value into a Go `int` struct field. -/
def Json.intField (fields : List (String × Json)) (key : String) : Option Int :=
  match Json.getField fields key with
  | none => some 0
  | some Json.null => some 0
  | some (Json.num n) => some n
  | some _ => none

/-! ## RRPC client (`pkg/rrpc/client.go`) -/

namespace Rrpc

/-- The `RRPCRequest` struct: `{id, version, params, method}`. -/
structure RRPCRequest where
  id : String
  version : String
  params : Option (List (String × Json))
  method : String
deriving Repr

/-- The `RRPCResponse` struct as it is marshalled: `data` and `message`
are `omitempty`, so `none` / `""` mean the field is absent. -/
structure RRPCResponse where
  id : String
  version : String
  code : Int
  data : Option Json
  message : String
deriving Repr

/-- Go's `json.Unmarshal(payload, &request)` for `RRPCRequest`: a JSON
object decodes field-wise, `null` leaves the zero struct, and any other
document (array, string, number) is an error. -/
def unmarshalRRPCRequest : Json → Option RRPCRequest
  | Json.obj fs => do
    let id ← Json.strField fs "id"
    let version ← Json.strField fs "version"
    let params ← Json.mapField fs "params"
    let method ← Json.strField fs "method"
    pure ⟨id, version, params, method⟩
  | Json.null => some ⟨"", "", none, ""⟩
  | _ => none

/-- `extractRequestId`: the precompiled pattern
`/sys/{pk}/{dn}/rrpc/request/(.+)` applied to a request topic of the
subscribed shape — the (non-empty) text after the request root.
Stated over the underlying character lists. -/
def extractRequestId (pk dn topic : String) : Option String :=
  let root := "/sys/" ++ pk ++ "/" ++ dn ++ "/rrpc/request/"
  if root.data.isPrefixOf topic.data ∧ root.data.length < topic.data.length then
    some ⟨topic.data.drop root.data.length⟩
  else
    none

/-- The response topic `/sys/{pk}/{dn}/rrpc/response/{id}`. -/
def responseTopic (pk dn requestId : String) : String :=
  "/sys/" ++ pk ++ "/" ++ dn ++ "/rrpc/response/" ++ requestId

/-- `sendErrorResponse`: fixed `id:"1"`, `version:"1.0"`, the given code
and message, no data. -/
def sendErrorResponse (code : Int) (message : String) : RRPCResponse :=
  ⟨"1", "1.0", code, none, message⟩

/-- `sendSuccessResponse`'s wrapping of the handler's returned bytes:
non-empty bytes that unmarshal into a `map[string]interface{}` become
`data`; a JSON `null` leaves the nil map (omitted by `omitempty`); any
other non-empty bytes become `{result: string(bytes)}`; empty or nil
bytes yield no `data` field. -/
def sendSuccessResponse (data : Payload) : RRPCResponse :=
  let d : Option Json :=
    if data.raw = "" then none
    else
      match data.parsed with
      | some (Json.obj fs) => some (Json.obj fs)
      | some Json.null => none
      | _ => some (Json.obj [("result", Json.str data.raw)])
  ⟨"1", "1.0", 200, d, ""⟩

/-- A registered RRPC handler: Go's
`func(requestId string, payload []byte) ([]byte, error)`. -/
def RrpcHandler : Type := String → Payload → Except String Payload

/-- `RRPCClient.handleRRPCRequest`: extract the request id from the topic
(silently dropping the message if that fails), unmarshal the request
(code 400 on failure), look up the handler by method (404 when absent),
run it (500 on error), and wrap success (200).  Returns the list of
`(topic, response)` publishes performed. -/
def handleRRPCRequest (pk dn : String) (handlers : List (String × RrpcHandler))
    (topic : String) (payload : Payload) : List (String × RRPCResponse) :=
  match extractRequestId pk dn topic with
  | none => []
  | some requestId =>
    match payload.parsed.bind unmarshalRRPCRequest with
    | none => [(responseTopic pk dn requestId, sendErrorResponse 400 "Invalid JSON format")]
    | some request =>
      match handlers.find? (fun p => p.1 = request.method) with
      | none =>
        [(responseTopic pk dn requestId,
          sendErrorResponse 404 ("Method '" ++ request.method ++ "' not found"))]
      | some h =>
        match h.2 requestId payload with
        | Except.error e => [(responseTopic pk dn requestId, sendErrorResponse 500 e)]
        | Except.ok data => [(responseTopic pk dn requestId, sendSuccessResponse data)]

end Rrpc

/-! ## MQTT dynamic registration (`pkg/dynreg/mqtt.go`) -/

namespace Dynreg

/-- The `MQTTDynRegResponseData` struct (all fields `omitempty` strings). -/
structure MQTTDynRegResponseData where
  deviceSecret : String
  clientId : String
  username : String
  password : String
deriving Repr, DecidableEq

/-- The wrapped `MQTTDynRegResponse` struct. -/
structure MQTTDynRegResponse where
  code : Int
  data : MQTTDynRegResponseData
  message : String
  requestId : String
deriving Repr, DecidableEq

/-- `json.Unmarshal` into `MQTTDynRegResponseData`: any JSON object
decodes (unknown keys are ignored; present keys must be strings),
`null` leaves the zero struct, everything else errors. -/
def unmarshalData : Json → Option MQTTDynRegResponseData
  | Json.obj fs => do
    let ds ← Json.strField fs "deviceSecret"
    let ci ← Json.strField fs "clientId"
    let un ← Json.strField fs "username"
    let pw ← Json.strField fs "password"
    pure ⟨ds, ci, un, pw⟩
  | Json.null => some ⟨"", "", "", ""⟩
  | _ => none

/-- `json.Unmarshal` into the wrapped `MQTTDynRegResponse`. -/
def unmarshalWrapped : Json → Option MQTTDynRegResponse
  | Json.obj fs => do
    let code ← Json.intField fs "code"
    let data ←
      match Json.getField fs "data" with
      | none => some ⟨"", "", "", ""⟩
      | some Json.null => some ⟨"", "", "", ""⟩
      | some j => unmarshalData j
    let message ← Json.strField fs "message"
    let requestId ← Json.strField fs "requestId"
    pure ⟨code, data, message, requestId⟩
  | Json.null => some ⟨0, ⟨"", "", "", ""⟩, "", ""⟩
  | _ => none

/-- `MQTTDynRegClient.messageHandler`: first try the direct format — if
that unmarshal succeeds the payload is wrapped into a response with
`Code 0`; only if it fails is the wrapped format tried; if both fail the
message is dropped.  Returns the response pushed onto the channel. -/
def messageHandler (payload : Payload) : Option MQTTDynRegResponse :=
  match payload.parsed with
  | none => none
  | some j =>
    match unmarshalData j with
    | some direct => some ⟨0, direct, "", ""⟩
    | none => unmarshalWrapped j

/-- `MQTTDynRegClient.Register`'s handling of the pushed response: no
message within the timeout is an error; a response whose code is neither
`200` nor `0` is a registration failure; otherwise the carried data is
returned. -/
def registerOutcome (received : Option MQTTDynRegResponse) :
    Except String MQTTDynRegResponseData :=
  match received with
  | none => Except.error "dynamic registration timeout"
  | some resp =>
    if resp.code ≠ 200 ∧ resp.code ≠ 0 then
      Except.error ("dynamic registration failed: code=" ++ toString resp.code ++
                    ", message=" ++ resp.message)
    else
      Except.ok resp.data

/-- `Register` on a single pushed message: what the call returns when the
broker pushes `payload` on `/ext/register/{pk}/{dn}` within the window. -/
def RegisterOnMessage (payload : Payload) : Except String MQTTDynRegResponseData :=
  registerOutcome (messageHandler payload)

end Dynreg

/-! ## Low-level OTA client (`pkg/ota/ota.go`, `pkg/ota/ota_simple.go`) -/

namespace Ota

/-- `DigestType` from `pkg/ota/ota.go`. -/
inductive DigestType where
  | md5
  | sha256
deriving Repr, DecidableEq

/-- The fields of `TaskDesc` that `SimpleDownload` consults. -/
structure TaskDesc where
  url : String
  size : Nat
  digestMethod : DigestType
  expectDigest : String
  version : String
  module : String
deriving Repr, DecidableEq

/-- `parseTaskDesc`'s digest-method rule: `"Md5"`/`"MD5"` select MD5,
anything else selects SHA-256. -/
def parseDigestMethod (signMethod : String) : DigestType :=
  if signMethod = "Md5" ∨ signMethod = "MD5" then DigestType.md5 else DigestType.sha256

/-- `Client.SimpleDownload` applied to the received HTTP response
(status code and body): reject a non-200 status, reject when
`uint32(len(data))` differs from `task.Size`, then compare the lowercase
hex MD5 of the body — `md5.Sum` unconditionally, whatever
`task.DigestMethod` says — with `task.ExpectDigest`, and return the body
on success. -/
def SimpleDownload (statusCode : Nat) (body : List Nat) (task : TaskDesc) :
    Except String (List Nat) :=
  if statusCode ≠ 200 then
    Except.error ("unexpected status code: " ++ toString statusCode)
  else if body.length % w32 ≠ task.size then
    Except.error ("size mismatch: got " ++ toString body.length ++
                  " bytes, expected " ++ toString task.size ++ " bytes")
  else
    let digest := bytesToHex (Md5.digest body)
    if digest ≠ task.expectDigest then
      Except.error ("digest mismatch: expected " ++ task.expectDigest ++ ", got " ++ digest)
    else
      Except.ok body

end Ota

/-! ## OTA manager (`pkg/framework/plugins/ota/manager.go`,
embedded in the same source file as the plugin manager) -/

namespace OtaMgr

/-- `Status` from `pkg/framework/plugins/ota/interfaces.go`. -/
inductive Status where
  | idle
  | downloading
  | verifying
  | updating
  | restarting
  | failed
deriving Repr, DecidableEq

/-- `UpdateResult` from `interfaces.go`. -/
structure UpdateResult where
  success : Bool
  message : String
  code : Int
deriving Repr, DecidableEq

/-- The collaborator calls `PerformUpdate` can make, in order. -/
inductive Call where
  | download
  | verify
  | prepareUpdate
  | executeUpdate
  | rollback
deriving Repr, DecidableEq

/-- The outcomes of the manager's collaborators for one run:
`downloader.Download`, `downloader.Verify`, `updater.PrepareUpdate`,
`versionProvider.SetVersion` and `updater.ExecuteUpdate`.
`SimpleDownloader.Verify` compares the lowercase hex MD5 of the data with
`info.Digest`; `verify` is kept as a function of the downloaded bytes so
that it can be instantiated with exactly that check. -/
structure UpdateEnv where
  download : Except String (List Nat)
  verify : List Nat → Except String Unit
  prepareUpdate : Except String Unit
  setVersion : Except String Unit
  executeUpdate : Except String Unit

/-- `SimpleDownloader.Verify` (downloader listing in
`pkg/framework/plugins/ota`): MD5 the data and compare with the expected
digest. -/
def SimpleDownloaderVerify (expected : String) (data : List Nat) : Except String Unit :=
  let digest := bytesToHex (Md5.digest data)
  if digest ≠ expected then
    Except.error ("digest mismatch: expected " ++ expected ++ ", got " ++ digest)
  else
    Except.ok ()

/-- `ManagerImpl.PerformUpdate`, translated branch by branch.  Returns the
`UpdateResult`, the final status, and the ordered trace of collaborator
calls.  A run that is not Idle returns immediately; a download error
returns code `-2`; a verification error returns code `-3` — with no
further collaborator call; a preparation error returns `-4`; an execution
error triggers `updater.Rollback()` and returns `-5`; success returns to
Idle with code `0`. -/
def PerformUpdate (env : UpdateEnv) (status : Status) :
    UpdateResult × Status × List Call :=
  if status ≠ Status.idle then
    (⟨false, "Update already in progress", -1⟩, status, [])
  else
    match env.download with
    | Except.error e =>
      (⟨false, "Download failed: " ++ e, -2⟩, Status.failed, [Call.download])
    | Except.ok data =>
      match env.verify data with
      | Except.error e =>
        (⟨false, "Verification failed: " ++ e, -3⟩, Status.failed,
         [Call.download, Call.verify])
      | Except.ok _ =>
        match env.prepareUpdate with
        | Except.error e =>
          (⟨false, "Update preparation failed: " ++ e, -4⟩, Status.failed,
           [Call.download, Call.verify, Call.prepareUpdate])
        | Except.ok _ =>
          -- a SetVersion failure is only logged
          match env.executeUpdate with
          | Except.error e =>
            (⟨false, "Update execution failed: " ++ e, -5⟩, Status.failed,
             [Call.download, Call.verify, Call.prepareUpdate, Call.executeUpdate,
              Call.rollback])
          | Except.ok _ =>
            (⟨true, "Update completed successfully", 0⟩, Status.idle,
             [Call.download, Call.verify, Call.prepareUpdate, Call.executeUpdate])

end OtaMgr

/-! ## Framework core (`pkg/framework/core/framework.go`) -/

namespace Core

/-- `LifecycleState` from `pkg/framework/core/types.go`. -/
inductive LifecycleState where
  | uninitialized
  | initializing
  | initialized
  | starting
  | started
  | stopping
  | stopped
deriving Repr, DecidableEq

/-- `DeviceInfo`: the identity fields consulted by `RegisterDevice`. -/
structure DeviceInfo where
  productKey : String
  deviceName : String
deriving Repr, DecidableEq

/-- The state `RegisterDevice` reads and writes: the device table (keyed
by DeviceID) and the lifecycle state. -/
structure FrameworkSt where
  devices : List (String × Nat)
  state : LifecycleState
deriving Repr, DecidableEq

/-- What one `RegisterDevice` call produces: the new state, whether an
asynchronous `OnInitialize` goroutine was scheduled, and the list of
event types published on the bus during the call. -/
structure RegisterEffect where
  st : FrameworkSt
  asyncInitScheduled : Bool
  emitted : List String
deriving Repr, DecidableEq

/-- `IoTFramework.RegisterDevice`: DeviceID is `PK + "." + DN`; a
duplicate DeviceID is an error that leaves the table unchanged; when the
framework is already Started an asynchronous `OnInitialize` is scheduled.
The function body contains no `Emit`/`Publish` call, so the list of
emitted events is empty. -/
def RegisterDevice (st : FrameworkSt) (info : DeviceInfo) (tag : Nat) :
    Except String RegisterEffect :=
  let deviceID := info.productKey ++ "." ++ info.deviceName
  if st.devices.any (fun p => p.1 = deviceID) then
    Except.error ("device " ++ deviceID ++ " already registered")
  else
    Except.ok
      { st := { st with devices := st.devices ++ [(deviceID, tag)] }
        asyncInitScheduled := st.state == LifecycleState.started
        emitted := [] }

end Core

/-! ## Plugin manager (`pkg/framework/plugin/plugin.go`) -/

namespace PluginMgr

/-- A registered plugin: its name and declared dependency names. -/
structure PluginSpec where
  name : String
  deps : List String
deriving Repr, DecidableEq

/-- `Manager.Register`: reject an empty name, a duplicate name, or any
declared dependency that is not already registered; otherwise add the
plugin to the table. -/
def Register (table : List PluginSpec) (p : PluginSpec) :
    Except String (List PluginSpec) :=
  if p.name = "" then
    Except.error "plugin name cannot be empty"
  else if table.any (fun q => q.name = p.name) then
    Except.error ("plugin " ++ p.name ++ " already registered")
  else
    match p.deps.find? (fun d => ! table.any (fun q => q.name = d)) with
    | some d => Except.error ("dependency " ++ d ++ " not found for plugin " ++ p.name)
    | none => Except.ok (table ++ [p])

/-- One sweep of `InitAll`/`StartAll`: walk the plugin map in iteration
order `order`; process every not-yet-done plugin whose dependencies are
all already done, marking it done immediately (so later plugins in the
same sweep observe it).  The returned list extends `done` with the
plugins processed this sweep, in invocation order. -/
def sweep (table : List PluginSpec) (done : List String) (order : List String) :
    List String :=
  order.foldl
    (fun done name =>
      match table.find? (fun p => p.name = name) with
      | none => done
      | some p =>
        if name ∈ done then done
        else if p.deps.all (fun d => d ∈ done) then done ++ [name]
        else done)
    done

/-- The `InitAll` / `StartAll` loop (their bodies are line-for-line the
same sweep): repeat sweeps — with a fresh map-iteration order each time —
until every plugin is processed; a sweep with zero progress while plugins
remain is the `circular dependency detected in plugins` error.  Returns
the invocation order, which is also the order in which the lifecycle
calls were made. -/
def runAll (table : List PluginSpec) (orders : Nat → List String) (k : Nat)
    (done : List String) : Except String (List String) :=
  if h : table.length ≤ done.length then
    Except.ok done
  else
    if hp : done.length < (sweep table done (orders k)).length then
      runAll table orders (k + 1) (sweep table done (orders k))
    else
      Except.error "circular dependency detected in plugins"
termination_by table.length - done.length
decreasing_by omega

/-- `Manager.InitAll` starting from the empty progress map. -/
def InitAll (table : List PluginSpec) (orders : Nat → List String) :
    Except String (List String) :=
  runAll table orders 0 []

/-- `Manager.StartAll` runs the identical sweeping loop. -/
def StartAll (table : List PluginSpec) (orders : Nat → List String) :
    Except String (List String) :=
  runAll table orders 0 []

/-- Dependency-respecting traces: whenever position `i` of the trace
names a registered plugin, every declared dependency of that plugin
already occurs strictly earlier in the trace. -/
def DepOrdered (table : List PluginSpec) (trace : List String) : Prop :=
  ∀ i (hi : i < trace.length) p,
    table.find? (fun q => q.name = trace.get ⟨i, hi⟩) = some p →
    ∀ d, d ∈ p.deps → d ∈ trace.take i

end PluginMgr

/-! ## Event bus (`pkg/framework/event/event.go`) -/

namespace EventBus

/-- `HandlerInfo`: the handler (identified by a tag), its priority, and
the async flag. -/
structure HandlerInfo where
  tag : Nat
  priority : Int
  async : Bool
deriving Repr, DecidableEq

/-- The contract of Go's `sort.Slice` with the comparison
`subscribers[i].Priority > subscribers[j].Priority`: the output is some
permutation of the input that is non-increasing in priority.  `sort.Slice`
is documented as NOT stable, so no more than this is guaranteed — the
relative order of equal-priority elements is unspecified. -/
def SortSliceSpec (inp out : List HandlerInfo) : Prop :=
  out.Perm inp ∧ out.Pairwise (fun a b => b.priority ≤ a.priority)

/-- One `SubscribeWithPriority` call as the source performs it: append the
new handler, then `sort.Slice` the subscriber list.  Relational, because
the sort's tie order is unspecified. -/
def SubscribeWithPriority (subs : List HandlerInfo) (h : HandlerInfo)
    (subs' : List HandlerInfo) : Prop :=
  SortSliceSpec (subs ++ [h]) subs'

/-- Subscriber lists reachable by some sequence of
`SubscribeWithPriority` calls from the empty list. -/
inductive Reachable : List HandlerInfo → Prop where
  | nil : Reachable []
  | step : ∀ {s h s'}, Reachable s → SubscribeWithPriority s h s' → Reachable s'

/-- `Bus.Publish` walks the (copied) subscriber slice in order and invokes
the synchronous handlers inline; this is the sequence of synchronous
invocations of one `Publish`. -/
def publishSyncOrder (subs : List HandlerInfo) : List HandlerInfo :=
  subs.filter (fun h => !h.async)

/-- The behaviour of one handler invocation. -/
inductive HOutcome where
  | ok
  | fail : String → HOutcome
  | panicked : String → HOutcome
deriving Repr, DecidableEq

/-- `Bus.executeHandler`: the deferred `recover` turns a panic into the
error `handler panic: …`; an error return is passed through; a normal
return produces no error.  The wrapper always returns (the goroutine
running it never dies from the panic). -/
def executeHandler : HOutcome → Option String
  | HOutcome.ok => none
  | HOutcome.fail e => some e
  | HOutcome.panicked p => some ("handler panic: " ++ p)

/-- `Bus.Publish` over the outcomes of the subscribed handlers: every
handler runs through `executeHandler`, the errors are collected, and a
non-empty error list makes `Publish` return the aggregate
`event handling errors: …` error. -/
def Publish (outcomes : List HOutcome) : Option String :=
  let errors := outcomes.filterMap executeHandler
  if errors.isEmpty then none
  else some ("event handling errors: " ++ toString errors)

end EventBus

/-! ## Concrete instances used by witnesses and counterexamples -/

/-- The dynamic-registration push in the unwrapped format
`{"deviceSecret":"S3CR3T"}`. -/
def unwrappedPayload : Payload :=
  ⟨"\x7b\"deviceSecret\":\"S3CR3T\"\x7d",
   some (Json.obj [("deviceSecret", Json.str "S3CR3T")])⟩

/-- The dynamic-registration push in the wrapped format with a success
code and a device secret inside `data`. -/
def wrappedOkPayload : Payload :=
  ⟨"\x7b\"code\":200,\"data\":\x7b\"deviceSecret\":\"S3CR3T\"\x7d,\"message\":\"success\",\"requestId\":\"r1\"\x7d",
   some (Json.obj
     [("code", Json.num 200),
      ("data", Json.obj [("deviceSecret", Json.str "S3CR3T")]),
      ("message", Json.str "success"),
      ("requestId", Json.str "r1")])⟩

/-- The dynamic-registration push in the wrapped format with a failure
code. -/
def wrappedFailPayload : Payload :=
  ⟨"\x7b\"code\":400,\"message\":\"device not registered\",\"requestId\":\"r2\"\x7d",
   some (Json.obj
     [("code", Json.num 400),
      ("message", Json.str "device not registered"),
      ("requestId", Json.str "r2")])⟩

/-- An OTA run whose digest verification fails: three bytes downloaded,
and the task's expected digest is not their MD5. -/
def c4VerifyFailEnv : OtaMgr.UpdateEnv :=
  { download := Except.ok [1, 2, 3]
    verify := OtaMgr.SimpleDownloaderVerify "00000000000000000000000000000000"
    prepareUpdate := Except.ok ()
    setVersion := Except.ok ()
    executeUpdate := Except.ok () }

/-- An OTA run whose verification step reports an arbitrary error. -/
def c4VerifyBoomEnv : OtaMgr.UpdateEnv :=
  { download := Except.ok [1, 2, 3]
    verify := fun _ => Except.error "boom"
    prepareUpdate := Except.ok ()
    setVersion := Except.ok ()
    executeUpdate := Except.ok () }

/-- An OTA run whose binary execution step fails. -/
def c4ExecFailEnv : OtaMgr.UpdateEnv :=
  { download := Except.ok [1, 2, 3]
    verify := fun _ => Except.ok ()
    prepareUpdate := Except.ok ()
    setVersion := Except.ok ()
    executeUpdate := Except.error "exec failed" }

/-- An OTA task whose expected digest is the MD5 of the empty payload. -/
def c10Task : Ota.TaskDesc :=
  { url := "https://example.invalid/fw.bin"
    size := 0
    digestMethod := Ota.DigestType.md5
    expectDigest := "d41d8cd98f00b204e9800998ecf8427e"
    version := "1.0.1"
    module := "default" }

/-- An RRPC handler that answers with the bytes `[1,2]` — a valid JSON
document that is not a JSON object. -/
def c3Handler : Rrpc.RrpcHandler :=
  fun _ _ => Except.ok ⟨"[1,2]", some (Json.arr [Json.num 1, Json.num 2])⟩

/-- An RRPC request payload `{"method":"m"}`. -/
def c3RequestPayload : Payload :=
  ⟨"\x7b\"method\":\"m\"\x7d", some (Json.obj [("method", Json.str "m")])⟩

/-- A payload that is not valid JSON. -/
def c3BadPayload : Payload :=
  ⟨"not json", none⟩

/-- A two-plugin table: `ota` declares a dependency on `mqtt`, mirroring
the framework's standard wiring. -/
def c7Table : List PluginMgr.PluginSpec :=
  [⟨"mqtt", []⟩, ⟨"ota", ["mqtt"]⟩]

/-- An adversarial map-iteration order that always visits `ota` first. -/
def c7Orders : Nat → List String := fun _ => ["ota", "mqtt"]

/-- A cyclic two-plugin table. -/
def c7CycleTable : List PluginMgr.PluginSpec := [⟨"a", ["b"]⟩, ⟨"b", ["a"]⟩]

/-- An iteration order for the cyclic table. -/
def c7CycleOrders : Nat → List String := fun _ => ["a", "b"]

end GoSdk

/-!
# Theorems

One theorem (plus witness / counterexample where required) per claim of
the specification.
-/

namespace GoSdk

/-- C1: the spec requires the MQTT session to route each incoming message
to every handler whose stored filter matches the topic under the MQTT
wildcard rules.  The stored wildcard filter `/sys/A/b/rrpc/request/+`
matches the incoming topic `/sys/A/b/rrpc/request/R1`, yet the session's
dispatch — which looks the concrete topic up as an exact key of the
handler table — invokes no handler at all for it; only a subscription
stored under the exact topic string is ever invoked. -/
theorem c1_wildcard_subscription_dropped :
    Mqtt.mqttFilterMatch "/sys/A/b/rrpc/request/+" "/sys/A/b/rrpc/request/R1" = true ∧
    Mqtt.dispatch [("/sys/A/b/rrpc/request/+", 1)] "/sys/A/b/rrpc/request/R1" = [] ∧
    Mqtt.dispatch [("/sys/A/b/rrpc/request/R1", 2)] "/sys/A/b/rrpc/request/R1" = [2] := by
  refine ⟨?_, ?_, ?_⟩ <;> rfl

/-- C2: for all fixed (PK, DN, DS, mode) the steady-state credential
builder returns byte-identical credentials with exactly the claimed
ClientID and Username shapes, and a Password that is the lowercase-hex
HMAC-SHA256 of
`clientId{PK}.{DN}deviceName{DN}productKey{PK}timestamp2524608000000`
keyed by the DeviceSecret. -/
theorem c2_generateMQTTCredentials_spec (pk dn ds m : String) :
    Auth.GenerateMQTTCredentials pk dn ds m =
      { ClientID := pk ++ "." ++ dn ++
          "|timestamp=2524608000000,_ss=1,_v=sdk-go-4.2.0,securemode=" ++ m ++
          ",signmethod=hmacsha256,ext=3,_conn=tl|"
        Username := dn ++ "&" ++ pk
        Password := bytesToHex (hmacSha256 (utf8Bytes ds)
          (utf8Bytes ("clientId" ++ pk ++ "." ++ dn ++ "deviceName" ++ dn ++
                      "productKey" ++ pk ++ "timestamp2524608000000"))) } := by
  have merge1 : ∀ t : String,
      "|timestamp=" ++ ("2524608000000" ++ (",_ss=1,_v=" ++ ("sdk-go-4.2.0" ++
        (",securemode=" ++ t)))) =
      "|timestamp=2524608000000,_ss=1,_v=sdk-go-4.2.0,securemode=" ++ t := by
    intro t
    rw [← String.append_assoc, ← String.append_assoc, ← String.append_assoc,
        ← String.append_assoc]
    rfl
  have merge2 : ("timestamp" : String) ++ "2524608000000" = "timestamp2524608000000" := rfl
  simp only [Auth.GenerateMQTTCredentials, Auth.calculateHMACSHA256,
    Auth.Credentials.mk.injEq]
  refine ⟨?_, ?_, ?_⟩
  · simp only [String.append_assoc, merge1]
  · trivial
  · simp only [String.append_assoc, merge2]

/-- C5: `RegisterDevice` computes DeviceID = `PK + "." + DN`, rejects a
duplicate DeviceID leaving the table unchanged, and schedules the
asynchronous `OnInitialize` when the framework is Started — but the list
of events it publishes is empty: no `device.registered` event is emitted,
although the OTA plugin and the framework README rely on it. -/
theorem c5_registerDevice_emits_nothing :
    Core.RegisterDevice ⟨[], Core.LifecycleState.started⟩ ⟨"A", "b"⟩ 1 =
      Except.ok ⟨⟨[("A.b", 1)], Core.LifecycleState.started⟩, true, []⟩ ∧
    Core.RegisterDevice ⟨[("A.b", 1)], Core.LifecycleState.started⟩ ⟨"A", "b"⟩ 2 =
      Except.error "device A.b already registered" := by
  refine ⟨?_, ?_⟩ <;> rfl

/-- C6: the dynamic-registration message handler accepts the unwrapped
format, but because Go's `json.Unmarshal` ignores unknown object keys,
the direct-format parse also succeeds on every wrapped payload: a wrapped
success response comes back with an empty deviceSecret instead of the one
carried inside `data`, and a wrapped failure response (code 400) is
converted to code 0 and reported as a successful registration. -/
theorem c6_wrapped_response_mishandled :
    Dynreg.RegisterOnMessage unwrappedPayload =
      Except.ok ⟨"S3CR3T", "", "", ""⟩ ∧
    Dynreg.messageHandler wrappedOkPayload = some ⟨0, ⟨"", "", "", ""⟩, "", ""⟩ ∧
    Dynreg.RegisterOnMessage wrappedOkPayload = Except.ok ⟨"", "", "", ""⟩ ∧
    Dynreg.RegisterOnMessage wrappedFailPayload = Except.ok ⟨"", "", "", ""⟩ := by
  refine ⟨?_, ?_, ?_, ?_⟩ <;> rfl

/-- C9: a handler that panics during `Publish` is recovered inside
`executeHandler` — the wrapper returns the `handler panic: …` error
instead of propagating the panic — and `Publish` consequently returns a
non-nil aggregate error. -/
theorem c9_handler_panic_contained (outcomes : List EventBus.HOutcome) (msg : String)
    (hmem : EventBus.HOutcome.panicked msg ∈ outcomes) :
    EventBus.executeHandler (EventBus.HOutcome.panicked msg) =
      some ("handler panic: " ++ msg) ∧
    EventBus.Publish outcomes ≠ none := by
  refine ⟨rfl, ?_⟩
  have hmem2 : ("handler panic: " ++ msg) ∈ outcomes.filterMap EventBus.executeHandler :=
    List.mem_filterMap.mpr ⟨_, hmem, rfl⟩
  have hne : outcomes.filterMap EventBus.executeHandler ≠ [] :=
    List.ne_nil_of_mem hmem2
  simp [EventBus.Publish, hne]

/-- Witness for C9 at the one-element subscriber list. -/
theorem c9_handler_panic_contained_witness :
    EventBus.HOutcome.panicked "boom" ∈ [EventBus.HOutcome.panicked "boom"] ∧
    (EventBus.executeHandler (EventBus.HOutcome.panicked "boom") =
       some ("handler panic: " ++ "boom") ∧
     EventBus.Publish [EventBus.HOutcome.panicked "boom"] ≠ none) :=
  ⟨by decide, c9_handler_panic_contained [EventBus.HOutcome.panicked "boom"] "boom" (by decide)⟩

end GoSdk

namespace GoSdk

/-- C4 counterexample: a concrete `PerformUpdate` run whose digest
verification fails (the task's expected digest is not the MD5 of the
downloaded bytes) returns the code `-3` failure and transitions to
Failed, but never calls `updater.Rollback()` — refuting the claim that a
verification failure always triggers a rollback attempt. -/
theorem c4_verify_failure_without_rollback :
    bytesToHex (Md5.digest [1, 2, 3]) ≠ "00000000000000000000000000000000" ∧
    (OtaMgr.PerformUpdate c4VerifyFailEnv OtaMgr.Status.idle).1.code = -3 ∧
    (OtaMgr.PerformUpdate c4VerifyFailEnv OtaMgr.Status.idle).2.1 = OtaMgr.Status.failed ∧
    OtaMgr.Call.rollback ∉ (OtaMgr.PerformUpdate c4VerifyFailEnv OtaMgr.Status.idle).2.2 := by
  refine ⟨by decide, by decide, by decide, by decide⟩

/-- C4 amended: a verification failure makes `PerformUpdate` return the
code `-3` failure, transition the manager to Failed, and return with
only the download and verify collaborators called — no rollback attempt;
`Rollback()` is attempted exactly when `ExecuteUpdate` fails. -/
theorem c4_rollback_only_on_execute_failure (env : OtaMgr.UpdateEnv) :
    (∀ data e, env.download = Except.ok data → env.verify data = Except.error e →
      OtaMgr.PerformUpdate env OtaMgr.Status.idle =
        (⟨false, "Verification failed: " ++ e, -3⟩, OtaMgr.Status.failed,
         [OtaMgr.Call.download, OtaMgr.Call.verify])) ∧
    (∀ data e, env.download = Except.ok data → env.verify data = Except.ok () →
      env.prepareUpdate = Except.ok () → env.executeUpdate = Except.error e →
      OtaMgr.Call.rollback ∈ (OtaMgr.PerformUpdate env OtaMgr.Status.idle).2.2) := by
  constructor
  · intro data e hd hv
    simp [OtaMgr.PerformUpdate, hd, hv]
  · intro data e hd hv hp he
    simp [OtaMgr.PerformUpdate, hd, hv, hp, he]

/-- Witness for the amended C4 theorem at two concrete environments. -/
theorem c4_rollback_only_on_execute_failure_witness :
    OtaMgr.PerformUpdate c4VerifyBoomEnv OtaMgr.Status.idle =
      (⟨false, "Verification failed: " ++ "boom", -3⟩, OtaMgr.Status.failed,
       [OtaMgr.Call.download, OtaMgr.Call.verify]) ∧
    OtaMgr.Call.rollback ∈ (OtaMgr.PerformUpdate c4ExecFailEnv OtaMgr.Status.idle).2.2 :=
  ⟨(c4_rollback_only_on_execute_failure c4VerifyBoomEnv).1 [1, 2, 3] "boom" rfl rfl,
   (c4_rollback_only_on_execute_failure c4ExecFailEnv).2 [1, 2, 3] "exec failed" rfl rfl rfl rfl⟩

/-- Length of the Go-style hex fold. -/
theorem bytesToHex_go_length (bs : List Nat) (acc : String) :
    (bs.foldl (fun acc b => acc ++ byteToHex b) acc).length = acc.length + 2 * bs.length := by
  induction bs generalizing acc with
  | nil => simp
  | cons b bs ih =>
    have hb : (acc ++ byteToHex b).length = acc.length + 2 := by
      rw [String.length_append]
      rfl
    simp only [List.foldl, ih, hb, List.length_cons]
    omega

/-- `bytesToHex` produces two characters per byte. -/
theorem bytesToHex_length (bs : List Nat) : (bytesToHex bs).length = 2 * bs.length := by
  simpa using bytesToHex_go_length bs ""

/-- An MD5 digest is 16 bytes. -/
theorem md5_digest_length (m : List Nat) : (Md5.digest m).length = 16 := by
  simp [Md5.digest, Md5.wordBytesLE]

/-- A SHA-256 digest is 32 bytes. -/
theorem sha256_digest_length (m : List Nat) : (Sha256.digest m).length = 32 := by
  simp [Sha256.digest, Sha256.wordBytesBE]

/-- Hex MD5 digests (32 characters) never coincide with hex SHA-256
digests (64 characters). -/
theorem md5Hex_ne_sha256Hex (a b : List Nat) :
    bytesToHex (Md5.digest a) ≠ bytesToHex (Sha256.digest b) := by
  intro h
  have hl := congrArg String.length h
  rw [bytesToHex_length, bytesToHex_length, md5_digest_length, sha256_digest_length] at hl
  omega

/-- C10: `SimpleDownload` returns the downloaded bytes iff the HTTP
status is 200, the byte count equals `task.Size`, and the lowercase-hex
MD5 digest of the bytes equals `task.ExpectDigest`; the outcome is
independent of `task.DigestMethod`; and a task whose expected digest is
the hex SHA-256 of any payload can never succeed. -/
theorem c10_simpleDownload_md5_gate (status : Nat) (body : List Nat) (task : Ota.TaskDesc)
    (hlen : body.length < w32) :
    (Ota.SimpleDownload status body task = Except.ok body ↔
      (status = 200 ∧ body.length = task.size ∧
       bytesToHex (Md5.digest body) = task.expectDigest)) ∧
    (∀ dm, Ota.SimpleDownload status body { task with digestMethod := dm } =
       Ota.SimpleDownload status body task) ∧
    (∀ payload, task.expectDigest = bytesToHex (Sha256.digest payload) →
       Ota.SimpleDownload status body task ≠ Except.ok body) := by
  have hmod : body.length % w32 = body.length := Nat.mod_eq_of_lt hlen
  have hiff : Ota.SimpleDownload status body task = Except.ok body ↔
      (status = 200 ∧ body.length = task.size ∧
       bytesToHex (Md5.digest body) = task.expectDigest) := by
    unfold Ota.SimpleDownload
    rw [hmod]
    split_ifs with h1 h2 <;> simp_all
  refine ⟨hiff, fun dm => rfl, fun payload hdig hok => ?_⟩
  have h3 := (hiff.mp hok).2.2
  rw [hdig] at h3
  exact md5Hex_ne_sha256Hex body payload h3

/-- Witness for C10 at the empty payload and its MD5 task. -/
theorem c10_simpleDownload_md5_gate_witness :
    ([] : List Nat).length < w32 ∧
    Ota.SimpleDownload 200 [] c10Task = Except.ok [] := by
  refine ⟨by decide, ?_⟩
  exact (c10_simpleDownload_md5_gate 200 [] c10Task (by decide)).1.mpr
    ⟨rfl, by decide, by decide⟩

end GoSdk

namespace GoSdk

/-- A list is a `isPrefixOf`-witnessed start of itself followed by
anything. -/
theorem isPrefixOf_append_self (l1 l2 : List Char) : l1.isPrefixOf (l1 ++ l2) = true := by
  induction l1 with
  | nil => simp [List.isPrefixOf]
  | cons c cs ih => simp [List.isPrefixOf, ih]

/-- The request-id matcher applied to a well-formed request topic yields
the trailing segment. -/
theorem extractRequestId_shape (pk dn id : String) (hid : id ≠ "") :
    Rrpc.extractRequestId pk dn ("/sys/" ++ pk ++ "/" ++ dn ++ "/rrpc/request/" ++ id) =
      some id := by
  have hne : id.data ≠ [] := fun h => hid (String.ext h)
  have hdata : ("/sys/" ++ pk ++ "/" ++ dn ++ "/rrpc/request/" ++ id).data =
      ("/sys/" ++ pk ++ "/" ++ dn ++ "/rrpc/request/").data ++ id.data :=
    String.data_append _ _
  simp only [Rrpc.extractRequestId, hdata]
  rw [if_pos]
  · rw [List.drop_left]
  · refine ⟨isPrefixOf_append_self _ _, ?_⟩
    have hpos := List.length_pos.mpr hne
    simp only [List.length_append]
    omega

/-- C3 (amended): for every request delivered on
`/sys/{PK}/{DN}/rrpc/request/{id}` the client publishes exactly one
response on `/sys/{PK}/{DN}/rrpc/response/{id}` with `id:"1"`,
`version:"1.0"`, and: 400/"Invalid JSON format" when the payload does not
unmarshal; 404/"Method '{m}' not found" when no handler is registered for
`m`; 500 with the handler's error message; 200 with the handler's bytes
embedded as `data` when they are a non-empty valid JSON **object**; and
200 with `{result: string(bytes)}` when they are non-empty but not a JSON
object (and not JSON `null`). -/
theorem c3_rrpc_response_shapes (pk dn id : String)
    (handlers : List (String × Rrpc.RrpcHandler)) (payload : Payload) (hid : id ≠ "") :
    (payload.parsed.bind Rrpc.unmarshalRRPCRequest = none →
       Rrpc.handleRRPCRequest pk dn handlers
           ("/sys/" ++ pk ++ "/" ++ dn ++ "/rrpc/request/" ++ id) payload =
         [(Rrpc.responseTopic pk dn id, ⟨"1", "1.0", 400, none, "Invalid JSON format"⟩)]) ∧
    (∀ req, payload.parsed.bind Rrpc.unmarshalRRPCRequest = some req →
       handlers.find? (fun p => p.1 = req.method) = none →
       Rrpc.handleRRPCRequest pk dn handlers
           ("/sys/" ++ pk ++ "/" ++ dn ++ "/rrpc/request/" ++ id) payload =
         [(Rrpc.responseTopic pk dn id,
           ⟨"1", "1.0", 404, none, "Method '" ++ req.method ++ "' not found"⟩)]) ∧
    (∀ req h e, payload.parsed.bind Rrpc.unmarshalRRPCRequest = some req →
       handlers.find? (fun p => p.1 = req.method) = some h →
       h.2 id payload = Except.error e →
       Rrpc.handleRRPCRequest pk dn handlers
           ("/sys/" ++ pk ++ "/" ++ dn ++ "/rrpc/request/" ++ id) payload =
         [(Rrpc.responseTopic pk dn id, ⟨"1", "1.0", 500, none, e⟩)]) ∧
    (∀ req h out fs, payload.parsed.bind Rrpc.unmarshalRRPCRequest = some req →
       handlers.find? (fun p => p.1 = req.method) = some h →
       h.2 id payload = Except.ok out → out.raw ≠ "" →
       out.parsed = some (Json.obj fs) →
       Rrpc.handleRRPCRequest pk dn handlers
           ("/sys/" ++ pk ++ "/" ++ dn ++ "/rrpc/request/" ++ id) payload =
         [(Rrpc.responseTopic pk dn id, ⟨"1", "1.0", 200, some (Json.obj fs), ""⟩)]) ∧
    (∀ req h out, payload.parsed.bind Rrpc.unmarshalRRPCRequest = some req →
       handlers.find? (fun p => p.1 = req.method) = some h →
       h.2 id payload = Except.ok out → out.raw ≠ "" →
       (∀ fs, out.parsed ≠ some (Json.obj fs)) → out.parsed ≠ some Json.null →
       Rrpc.handleRRPCRequest pk dn handlers
           ("/sys/" ++ pk ++ "/" ++ dn ++ "/rrpc/request/" ++ id) payload =
         [(Rrpc.responseTopic pk dn id,
           ⟨"1", "1.0", 200, some (Json.obj [("result", Json.str out.raw)]), ""⟩)]) := by
  have hex := extractRequestId_shape pk dn id hid
  refine ⟨?_, ?_, ?_, ?_, ?_⟩
  · intro hparse
    simp [Rrpc.handleRRPCRequest, hex, hparse, Rrpc.sendErrorResponse]
  · intro req hparse hfind
    simp [Rrpc.handleRRPCRequest, hex, hparse, hfind, Rrpc.sendErrorResponse]
  · intro req h e hparse hfind hrun
    simp [Rrpc.handleRRPCRequest, hex, hparse, hfind, hrun, Rrpc.sendErrorResponse]
  · intro req h out fs hparse hfind hrun hraw hobj
    simp [Rrpc.handleRRPCRequest, hex, hparse, hfind, hrun,
      Rrpc.sendSuccessResponse, hraw, hobj]
  · intro req h out hparse hfind hrun hraw hobj hnull
    simp only [Rrpc.handleRRPCRequest, hex, hparse, hfind, hrun]
    cases hp : out.parsed with
    | none => simp [Rrpc.sendSuccessResponse, hraw, hp]
    | some j =>
      cases j with
      | str s => simp [Rrpc.sendSuccessResponse, hraw, hp]
      | num n => simp [Rrpc.sendSuccessResponse, hraw, hp]
      | boolean b => simp [Rrpc.sendSuccessResponse, hraw, hp]
      | null => exact absurd hp hnull
      | arr xs => simp [Rrpc.sendSuccessResponse, hraw, hp]
      | obj fs => exact absurd hp (hobj fs)

/-- C3 counterexample: a handler that returns the bytes `[1,2]` — valid
JSON, but not a JSON object — does not get them embedded as `data`; the
response wraps them as `{result:"[1,2]"}` instead, refuting "embedded as
`data` when they are valid JSON" as stated. -/
theorem c3_valid_json_array_not_embedded :
    Rrpc.handleRRPCRequest "A" "b" [("m", c3Handler)]
        "/sys/A/b/rrpc/request/R1" c3RequestPayload =
      [("/sys/A/b/rrpc/response/R1",
        ⟨"1", "1.0", 200, some (Json.obj [("result", Json.str "[1,2]")]), ""⟩)] ∧
    c3Handler "R1" c3RequestPayload =
      Except.ok ⟨"[1,2]", some (Json.arr [Json.num 1, Json.num 2])⟩ ∧
    some (Json.obj [("result", Json.str "[1,2]")]) ≠
      some (Json.arr [Json.num 1, Json.num 2]) := by
  refine ⟨rfl, rfl, by simp⟩

/-- Witness for the amended C3 theorem: the 400 branch at a concrete
malformed payload. -/
theorem c3_rrpc_response_shapes_witness :
    ("R1" : String) ≠ "" ∧
    Rrpc.handleRRPCRequest "A" "b" [("m", c3Handler)]
        "/sys/A/b/rrpc/request/R1" c3BadPayload =
      [("/sys/A/b/rrpc/response/R1", ⟨"1", "1.0", 400, none, "Invalid JSON format"⟩)] :=
  ⟨by decide,
   (c3_rrpc_response_shapes "A" "b" "R1" [("m", c3Handler)] c3BadPayload (by decide)).1 rfl⟩

end GoSdk

namespace GoSdk

/-- The empty trace respects dependencies. -/
theorem depOrdered_nil (table : List PluginMgr.PluginSpec) :
    PluginMgr.DepOrdered table [] := by
  intro i hi
  simp at hi

/-- Appending a plugin whose dependencies are all already processed
keeps a trace dependency-respecting. -/
theorem depOrdered_append (table : List PluginMgr.PluginSpec) (done : List String)
    (name : String) (p : PluginMgr.PluginSpec)
    (h : PluginMgr.DepOrdered table done)
    (hfind : table.find? (fun q => q.name = name) = some p)
    (hdeps : ∀ d, d ∈ p.deps → d ∈ done) :
    PluginMgr.DepOrdered table (done ++ [name]) := by
  intro i hi q hq d hd
  have hi' : i < done.length + 1 := by simpa using hi
  rcases Nat.lt_or_ge i done.length with hlt | hge
  · have hget : (done ++ [name]).get ⟨i, hi⟩ = done.get ⟨i, hlt⟩ := by
      simp [List.get_eq_getElem, List.getElem_append_left hlt]
    rw [hget] at hq
    have hmem := h i hlt q hq d hd
    rw [List.take_append_of_le_length (by omega)]
    exact hmem
  · have heq : i = done.length := by omega
    subst heq
    have hget : (done ++ [name]).get ⟨done.length, hi⟩ = name := by
      simp [List.get_eq_getElem]
    rw [hget] at hq
    have hpq : q = p := by
      have := hfind.symm.trans hq
      exact (Option.some.inj this).symm
    subst hpq
    rw [List.take_left]
    exact hdeps d hd

/-- One sweep preserves dependency-respecting traces. -/
theorem sweep_preserves_depOrdered (table : List PluginMgr.PluginSpec)
    (order : List String) :
    ∀ done, PluginMgr.DepOrdered table done →
      PluginMgr.DepOrdered table (PluginMgr.sweep table done order) := by
  induction order with
  | nil =>
    intro done h
    simpa [PluginMgr.sweep] using h
  | cons name rest ih =>
    intro done h
    rw [PluginMgr.sweep, List.foldl_cons, ← PluginMgr.sweep]
    cases hfind : table.find? (fun q => q.name = name) with
    | none =>
      simp only [hfind]
      exact ih done h
    | some p =>
      simp only [hfind]
      by_cases hmem : name ∈ done
      · simp only [if_pos hmem]
        exact ih done h
      · simp only [if_neg hmem]
        by_cases hall : p.deps.all (fun d => d ∈ done)
        · simp only [if_pos hall]
          refine ih (done ++ [name]) (depOrdered_append table done name p h hfind ?_)
          intro d hd
          have := List.all_eq_true.mp hall d hd
          simpa using this
        · simp only [if_neg hall]
          exact ih done h

/-- A successful `runAll` returns a dependency-respecting trace. -/
theorem runAll_ok_depOrdered (table : List PluginMgr.PluginSpec)
    (orders : Nat → List String) :
    ∀ n k done trace, table.length - done.length ≤ n →
      PluginMgr.DepOrdered table done →
      PluginMgr.runAll table orders k done = Except.ok trace →
      PluginMgr.DepOrdered table trace := by
  intro n
  induction n with
  | zero =>
    intro k done trace hn h hrun
    rw [PluginMgr.runAll] at hrun
    rw [dif_pos (by omega)] at hrun
    injection hrun with h'
    exact h' ▸ h
  | succ n ih =>
    intro k done trace hn h hrun
    rw [PluginMgr.runAll] at hrun
    by_cases hle : table.length ≤ done.length
    · rw [dif_pos hle] at hrun
      injection hrun with h'
      exact h' ▸ h
    · rw [dif_neg hle] at hrun
      by_cases hp : done.length < (PluginMgr.sweep table done (orders k)).length
      · rw [dif_pos hp] at hrun
        exact ih (k + 1) _ trace (by omega)
          (sweep_preserves_depOrdered table (orders k) done h) hrun
      · rw [dif_neg hp] at hrun
        exact absurd hrun (by simp)

/-- C7: `Register` rejects duplicate names and unregistered dependencies;
for every plugin table and every sequence of map-iteration orders,
`InitAll`/`StartAll` only produce invocation traces in which each
plugin's declared dependencies have completed the same lifecycle step
first; and a sweep that makes no progress while plugins remain returns
the circular-dependency error without invoking any remaining plugin. -/
theorem c7_plugin_manager_contract (table : List PluginMgr.PluginSpec)
    (p : PluginMgr.PluginSpec) (orders : Nat → List String) :
    (table.any (fun q => q.name = p.name) = true →
       ∃ e, PluginMgr.Register table p = Except.error e) ∧
    (∀ d, d ∈ p.deps → table.any (fun q => q.name = d) = false →
       ∃ e, PluginMgr.Register table p = Except.error e) ∧
    (∀ trace, PluginMgr.InitAll table orders = Except.ok trace →
       PluginMgr.DepOrdered table trace) ∧
    (PluginMgr.StartAll table orders = PluginMgr.InitAll table orders) ∧
    (∀ k done, ¬ table.length ≤ done.length →
       PluginMgr.sweep table done (orders k) = done →
       PluginMgr.runAll table orders k done =
         Except.error "circular dependency detected in plugins") := by
  refine ⟨?_, ?_, ?_, rfl, ?_⟩
  · intro hdup
    unfold PluginMgr.Register
    split_ifs with h1
    · exact ⟨_, rfl⟩
    · exact ⟨_, rfl⟩
  · intro d hd hany
    unfold PluginMgr.Register
    split_ifs with h1 h2
    · exact ⟨_, rfl⟩
    · exact ⟨_, rfl⟩
    · have hsome : (p.deps.find? (fun d => ! table.any (fun q => q.name = d))).isSome = true :=
        List.find?_isSome.mpr ⟨d, hd, by simp [hany]⟩
      obtain ⟨d', hd'⟩ := Option.isSome_iff_exists.mp hsome
      rw [hd']
      exact ⟨_, rfl⟩
  · intro trace hrun
    exact runAll_ok_depOrdered table orders table.length 0 [] trace (by simp)
      (depOrdered_nil table) hrun
  · intro k done hle hsw
    rw [PluginMgr.runAll, dif_neg hle, dif_neg (by rw [hsw]; omega)]

/-- Witness for C7: duplicate and missing-dependency registrations are
rejected on the concrete mqtt/ota table, the adversarial iteration order
still yields the dependency-respecting trace `["mqtt", "ota"]`, and the
cyclic table produces the circular-dependency error. -/
theorem c7_plugin_manager_contract_witness :
    (∃ e, PluginMgr.Register c7Table ⟨"mqtt", []⟩ = Except.error e) ∧
    (∃ e, PluginMgr.Register c7Table ⟨"cloud", ["zigbee"]⟩ = Except.error e) ∧
    PluginMgr.DepOrdered c7Table ["mqtt", "ota"] ∧
    PluginMgr.runAll c7CycleTable c7CycleOrders 0 [] =
      Except.error "circular dependency detected in plugins" :=
  ⟨(c7_plugin_manager_contract c7Table ⟨"mqtt", []⟩ c7Orders).1 (by decide),
   (c7_plugin_manager_contract c7Table ⟨"cloud", ["zigbee"]⟩ c7Orders).2.1 "zigbee"
     (by decide) (by decide),
   (c7_plugin_manager_contract c7Table ⟨"mqtt", []⟩ c7Orders).2.2.1 ["mqtt", "ota"]
     (by simp [PluginMgr.InitAll, PluginMgr.runAll, PluginMgr.sweep, c7Table, c7Orders]),
   (c7_plugin_manager_contract c7CycleTable ⟨"mqtt", []⟩ c7CycleOrders).2.2.2.2 0 []
     (by decide) (by decide)⟩

end GoSdk

namespace GoSdk

/-- C8 (amended): during a single `Publish`, the synchronous handlers are
invoked in non-increasing priority order, for every subscriber list
reachable through `SubscribeWithPriority`.  The relative order of
equal-priority handlers is NOT part of the guarantee: the subscriber list
is re-sorted with `sort.Slice`, which is documented as unstable, so only
sortedness survives. -/
theorem c8_publish_priority_order (subs : List EventBus.HandlerInfo)
    (h : EventBus.Reachable subs) :
    (EventBus.publishSyncOrder subs).Pairwise (fun a b => b.priority ≤ a.priority) := by
  have hs : subs.Pairwise (fun a b => b.priority ≤ a.priority) := by
    cases h with
    | nil => exact List.Pairwise.nil
    | step hr hsub => exact hsub.2
  exact hs.sublist (List.filter_sublist subs)

/-- Witness for the amended C8 theorem at a concrete two-subscription
history. -/
theorem c8_publish_priority_order_witness :
    EventBus.Reachable [⟨1, 5, false⟩, ⟨2, 3, true⟩] ∧
    (EventBus.publishSyncOrder [⟨1, 5, false⟩, ⟨2, 3, true⟩]).Pairwise
      (fun a b => b.priority ≤ a.priority) :=
  have h1 : EventBus.SubscribeWithPriority [] ⟨1, 5, false⟩ [⟨1, 5, false⟩] :=
    ⟨by decide, by decide⟩
  have h2 : EventBus.SubscribeWithPriority [⟨1, 5, false⟩] ⟨2, 3, true⟩
      [⟨1, 5, false⟩, ⟨2, 3, true⟩] :=
    ⟨by decide, by decide⟩
  have hr : EventBus.Reachable [⟨1, 5, false⟩, ⟨2, 3, true⟩] :=
    EventBus.Reachable.step (EventBus.Reachable.step EventBus.Reachable.nil h1) h2
  ⟨hr, c8_publish_priority_order _ hr⟩

/-- C8 counterexample: subscribing two handlers with equal priority may
legally leave the later subscriber first — `sort.Slice`'s contract admits
the swapped order, which is sorted and a permutation — so a `Publish`
then invokes equal-priority synchronous handlers in the reverse of their
subscription order, refuting "insertion order breaks ties". -/
theorem c8_equal_priority_order_not_preserved :
    EventBus.SubscribeWithPriority [⟨1, 0, false⟩] ⟨2, 0, false⟩
      [⟨2, 0, false⟩, ⟨1, 0, false⟩] ∧
    EventBus.Reachable [⟨2, 0, false⟩, ⟨1, 0, false⟩] ∧
    EventBus.publishSyncOrder [⟨2, 0, false⟩, ⟨1, 0, false⟩] =
      [⟨2, 0, false⟩, ⟨1, 0, false⟩] ∧
    ([⟨2, 0, false⟩, ⟨1, 0, false⟩] : List EventBus.HandlerInfo) ≠
      [⟨1, 0, false⟩, ⟨2, 0, false⟩] := by
  have h1 : EventBus.SubscribeWithPriority [] ⟨1, 0, false⟩ [⟨1, 0, false⟩] :=
    ⟨by decide, by decide⟩
  have h2 : EventBus.SubscribeWithPriority [⟨1, 0, false⟩] ⟨2, 0, false⟩
      [⟨2, 0, false⟩, ⟨1, 0, false⟩] :=
    ⟨by decide, by decide⟩
  exact ⟨h2, EventBus.Reachable.step (EventBus.Reachable.step EventBus.Reachable.nil h1) h2,
    rfl, by decide⟩

end GoSdk
